import Mathlib

/-!
Shallow embedding of the flight-data ETL pipeline
(`dags/flight_pipeline_dag.py`, `scripts/db_helper.py`,
`scripts/s3_helper.py`, `scripts/weather_helper.py`) and proofs about it.

Conventions:
* pandas cell values are modelled by `PyVal` (missing/NaN, string, number);
* Python `float(...)` on a string is modelled by a decimal parser
  (`parseFloat`); non-finite literals such as inf/nan are outside the
  modelled grammar, every claim below only depends on the parse-failure
  behaviour;
* database tables are lists of rows; `INSERT ... ON CONFLICT ... DO NOTHING`
  is a fold that skips a row whose conflict key is already present
  (PostgreSQL also skips intra-statement conflicts for DO NOTHING);
* exceptions are modelled by `Except` / explicit abort flags.
-/

namespace FlightPipeline

/-- A pandas scalar cell: missing (NaN/None), a string, or a number. -/
inductive PyVal where
  | na : PyVal
  | vstr : String → PyVal
  | vnum : ℚ → PyVal
deriving DecidableEq, Repr

/-- Python `str.strip()`: drop whitespace from both ends. -/
def pyStrip (s : String) : String :=
  ⟨((s.data.dropWhile Char.isWhitespace).reverse.dropWhile Char.isWhitespace).reverse⟩

/-- Parse a non-empty all-digit string as a natural number. -/
def parseNat (s : String) : Option ℕ :=
  if s.data ≠ [] ∧ s.data.all Char.isDigit then
    some (s.data.foldl (fun a c => a * 10 + (c.toNat - 48)) 0)
  else none

/-- Digits-with-optional-fraction part of a Python float literal. -/
def parseUnsignedFloat (cs : List Char) : Option ℚ :=
  let intPart := cs.takeWhile Char.isDigit
  let rest := cs.dropWhile Char.isDigit
  let natOf : List Char → ℚ := fun l => ((l.foldl (fun a c => a * 10 + (c.toNat - 48)) 0 : ℕ) : ℚ)
  match rest with
  | [] => if intPart = [] then none else some (natOf intPart)
  | '.' :: frac =>
      if frac.all Char.isDigit ∧ (intPart ≠ [] ∨ frac ≠ []) then
        some (natOf intPart + natOf frac / ((10 : ℚ) ^ frac.length))
      else none
  | _ => none

/-- Model of Python `float(s)` on a string: optional sign around a decimal
literal, surrounding whitespace ignored; `none` models a `ValueError`. -/
def parseFloat (s : String) : Option ℚ :=
  match (pyStrip s).data with
  | '+' :: cs => parseUnsignedFloat cs
  | '-' :: cs => (parseUnsignedFloat cs).map Neg.neg
  | cs => parseUnsignedFloat cs

/-- Model of Python `float(val)`: numbers pass through, strings are parsed,
anything else (None/NaN reaching `int(...)` downstream) raises = `none`. -/
def pyFloatOpt : PyVal → Option ℚ
  | .na => none
  | .vstr s => parseFloat s
  | .vnum q => some q

/-- Python `int(q)` on a float: truncation toward zero. -/
def truncInt (q : ℚ) : ℤ :=
  if 0 ≤ q then ⌊q⌋ else -⌊-q⌋

/-- `db_helper.safe_float`: `None` when the value is missing or the empty
string, otherwise `float(val)` with conversion errors mapped to `None`. -/
def safe_float (v : PyVal) : Option ℚ :=
  if v = .na ∨ v = .vstr "" then none else pyFloatOpt v

/-- `db_helper.safe_int`: like `safe_float` but truncates via `int(float(val))`. -/
def safe_int (v : PyVal) : Option ℤ :=
  if v = .na ∨ v = .vstr "" then none else (pyFloatOpt v).map truncInt

/-- Python `str(val)` for the values that can reach it in `safe_str`. -/
def pyStr : PyVal → String
  | .na => "nan"
  | .vstr s => s
  | .vnum q => toString q

/-- `db_helper.safe_str`: `None` when the value is missing or the (untrimmed)
empty string, otherwise `str(val).strip()`. -/
def safe_str (v : PyVal) : Option String :=
  if v = .na ∨ v = .vstr "" then none else some (pyStrip (pyStr v))

/-- `db_helper.safe_bool`: `bool(int(float(val)))` with every conversion
error caught and mapped to `False`. -/
def safe_bool (v : PyVal) : Bool :=
  match pyFloatOpt v with
  | none => false
  | some q => truncInt q ≠ 0

/-! ## Date dimension (`db_helper.ensure_dates_exist`) -/

/-- A Gregorian calendar date (as produced by Python `datetime.date`). -/
structure Date where
  year : ℕ
  month : ℕ
  day : ℕ
deriving DecidableEq, Repr

def isLeapYear (y : ℕ) : Bool :=
  (y % 4 = 0 && y % 100 ≠ 0) || y % 400 = 0

def daysInMonth (y m : ℕ) : ℕ :=
  if m = 2 then (if isLeapYear y then 29 else 28)
  else if m = 4 ∨ m = 6 ∨ m = 9 ∨ m = 11 then 30
  else 31

/-- Days since 1970-01-01 of a civil date (standard civil-from-days inverse;
all divisions below act on non-negative operands). -/
def daysFromCivil (y : ℤ) (m d : ℕ) : ℤ :=
  let yAdj : ℤ := if m ≤ 2 then y - 1 else y
  let era : ℤ := Int.fdiv yAdj 400
  let yoe : ℤ := yAdj - era * 400
  let mp : ℤ := ((m : ℤ) + 9) % 12
  let doy : ℤ := (153 * mp + 2) / 5 + ((d : ℤ) - 1)
  let doe : ℤ := yoe * 365 + yoe / 4 - yoe / 100 + doy
  era * 146097 + doe - 719468

/-- Python `datetime.weekday()`: Monday = 0 … Sunday = 6
(1970-01-01 was a Thursday, weekday 3). -/
def pyWeekday (dt : Date) : ℕ :=
  ((daysFromCivil dt.year dt.month dt.day + 3) % 7).toNat

def dayNames : List String :=
  ["Monday", "Tuesday", "Wednesday", "Thursday", "Friday", "Saturday", "Sunday"]

def monthNames : List String :=
  ["January", "February", "March", "April", "May", "June",
   "July", "August", "September", "October", "November", "December"]

/-- `get_season` inside `ensure_dates_exist`. -/
def getSeason (m : ℕ) : String :=
  if m = 12 ∨ m = 1 ∨ m = 2 then "Winter"
  else if m = 3 ∨ m = 4 ∨ m = 5 then "Spring"
  else if m = 6 ∨ m = 7 ∨ m = 8 then "Summer"
  else "Fall"

/-- One row of `date_dim` as inserted by `ensure_dates_exist`. -/
structure DateDimRow where
  dateId : Date
  year : ℕ
  quarter : ℕ
  month : ℕ
  dayOfMonth : ℕ
  dayOfWeek : ℕ
  dayName : String
  monthName : String
  isWeekend : Bool
  season : String
deriving DecidableEq, Repr

/-- The tuple `ensure_dates_exist` inserts for one date:
`(d, d.year, (d.month-1)//3+1, d.month, d.day, d.weekday(), d.strftime(A),
d.strftime(B), d.weekday() >= 5, get_season(d.month))`. -/
def ensureDateRow (dt : Date) : DateDimRow where
  dateId := dt
  year := dt.year
  quarter := (dt.month - 1) / 3 + 1
  month := dt.month
  dayOfMonth := dt.day
  dayOfWeek := pyWeekday dt
  dayName := dayNames.getD (pyWeekday dt) ""
  monthName := monthNames.getD (dt.month - 1) ""
  isWeekend := decide (5 ≤ pyWeekday dt)
  season := getSeason dt.month

/-- `str.split` at a separator character, as a structural recursion on the
character list (mirrors Python `s.split(sep)`). -/
def splitOnChar (sep : Char) : List Char → List (List Char)
  | [] => [[]]
  | c :: rest =>
    match splitOnChar sep rest with
    | [] => if c = sep then [[], []] else [[c]]
    | h :: t => if c = sep then [] :: h :: t else (c :: h) :: t

/-- `parseNat` on a raw character list. -/
def parseNatChars (l : List Char) : Option ℕ :=
  if l ≠ [] ∧ l.all Char.isDigit then
    some (l.foldl (fun a c => a * 10 + (c.toNat - 48)) 0)
  else none

/-- Python `datetime.strptime(s, Y-m-d)`: three dash-separated numeric
fields with calendar-validated month and day (raises = `none` otherwise). -/
def parseDate (s : String) : Option Date :=
  match splitOnChar '-' s.data with
  | [ys, ms, ds] =>
    match parseNatChars ys, parseNatChars ms, parseNatChars ds with
    | some y, some m, some d =>
        if 1 ≤ m ∧ m ≤ 12 ∧ 1 ≤ d ∧ d ≤ daysInMonth y m then some ⟨y, m, d⟩ else none
    | _, _, _ => none
  | _ => none

def pad2 (n : ℕ) : String := if n < 10 then "0" ++ toString n else toString n

def pad4 (n : ℕ) : String :=
  if n < 10 then "000" ++ toString n
  else if n < 100 then "00" ++ toString n
  else if n < 1000 then "0" ++ toString n
  else toString n

/-- Python `str(d)` for a `datetime.date`: zero-padded ISO form. -/
def dateStr (dt : Date) : String :=
  pad4 dt.year ++ "-" ++ pad2 dt.month ++ "-" ++ pad2 dt.day

/-- `ensure_dates_exist` over a list of date strings: each is re-parsed with
`strptime` and its derived row inserted.  Callers in this pipeline only pass
canonical `str(date)` prints, for which the parse succeeds; an unparseable
string would raise in Python. -/
def ensureDatesExist (dates : List String) : List DateDimRow :=
  dates.filterMap (fun s => (parseDate s).map ensureDateRow)

/-! ## Flights fact loader (`load_flights`) -/

/-- One CSV row as seen by `load_flights`: the four validated columns are
accessed with `row[...]` (required), the remaining columns with
`row.get(...)`, modelled by the `get` field. -/
structure RawRow where
  origin : String
  dest : String
  carrier : String
  flightDate : String
  get : String → PyVal

/-- One row of the `flights` fact table (the 32-column insert tuple). -/
structure FlightRow where
  flightDate : String
  carrierCode : String
  tailNumber : Option String
  flightNumber : Option ℤ
  originAirport : String
  originCity : Option String
  originState : Option String
  destAirport : String
  destCity : Option String
  destState : Option String
  scheduledDep : Option String
  actualDep : Option String
  depDelay : Option ℚ
  depDelayMinutes : Option ℚ
  depDelay15 : Bool
  scheduledArr : Option String
  actualArr : Option String
  arrDelay : Option ℚ
  arrDelayMinutes : Option ℚ
  arrDelay15 : Bool
  cancelled : Bool
  cancellationCode : Option String
  diverted : Bool
  distance : Option ℚ
  airTime : Option ℚ
  scheduledElapsed : Option ℚ
  actualElapsed : Option ℚ
  carrierDelay : Option ℚ
  weatherDelay : Option ℚ
  nasDelay : Option ℚ
  securityDelay : Option ℚ
  lateAircraftDelay : Option ℚ
deriving DecidableEq, Repr

/-- The tuple appended to `valid_rows` for an accepted row
(`load_flights`, the long `valid_rows.append((...))` call). -/
def buildFlightRow (r : RawRow) : FlightRow where
  flightDate := pyStrip r.flightDate
  carrierCode := pyStrip r.carrier
  tailNumber := safe_str (r.get "Tail_Number")
  flightNumber := safe_int (r.get "Flight_Number_Reporting_Airline")
  originAirport := pyStrip r.origin
  originCity := safe_str (r.get "OriginCityName")
  originState := safe_str (r.get "OriginState")
  destAirport := pyStrip r.dest
  destCity := safe_str (r.get "DestCityName")
  destState := safe_str (r.get "DestState")
  scheduledDep := safe_str (r.get "CRSDepTime")
  actualDep := safe_str (r.get "DepTime")
  depDelay := safe_float (r.get "DepDelay")
  depDelayMinutes := safe_float (r.get "DepDelayMinutes")
  depDelay15 := safe_bool (r.get "DepDel15")
  scheduledArr := safe_str (r.get "CRSArrTime")
  actualArr := safe_str (r.get "ArrTime")
  arrDelay := safe_float (r.get "ArrDelay")
  arrDelayMinutes := safe_float (r.get "ArrDelayMinutes")
  arrDelay15 := safe_bool (r.get "ArrDel15")
  cancelled := safe_bool (r.get "Cancelled")
  cancellationCode := safe_str (r.get "CancellationCode")
  diverted := safe_bool (r.get "Diverted")
  distance := safe_float (r.get "Distance")
  airTime := safe_float (r.get "AirTime")
  scheduledElapsed := safe_float (r.get "CRSElapsedTime")
  actualElapsed := safe_float (r.get "ActualElapsedTime")
  carrierDelay := safe_float (r.get "CarrierDelay")
  weatherDelay := safe_float (r.get "WeatherDelay")
  nasDelay := safe_float (r.get "NASDelay")
  securityDelay := safe_float (r.get "SecurityDelay")
  lateAircraftDelay := safe_float (r.get "LateAircraftDelay")

/-- The `rejection_reasons` list built for one row: one reason per failing
foreign-key check, in source order. -/
def rejectionReasons (validAirports validCarriers validDates : List String)
    (r : RawRow) : List String :=
  (if pyStrip r.origin ∈ validAirports then []
   else ["Unknown origin airport: " ++ pyStrip r.origin]) ++
  (if pyStrip r.dest ∈ validAirports then []
   else ["Unknown dest airport: " ++ pyStrip r.dest]) ++
  (if pyStrip r.carrier ∈ validCarriers then []
   else ["Unknown carrier: " ++ pyStrip r.carrier]) ++
  (if pyStrip r.flightDate ∈ validDates then []
   else ["Unknown date: " ++ pyStrip r.flightDate])

/-- One row of `rejected_records`. -/
structure RejectedRecord where
  source : String
  fileName : String
  rowNumber : ℕ
  rawData : String
  rejectionReason : String
deriving DecidableEq, Repr

/-- The tuple appended to `rejected_rows` for a rejected row. -/
def mkRejectedRecord (fileName : String) (idx : ℕ) (r : RawRow)
    (reasons : List String) : RejectedRecord where
  source := "flights"
  fileName := fileName
  rowNumber := idx
  rawData := pyStrip r.flightDate ++ "," ++ pyStrip r.carrier ++ ","
    ++ pyStrip r.origin ++ "," ++ pyStrip r.dest
  rejectionReason := String.intercalate "; " reasons

/-- Step A of a chunk: split the chunk's rows (whose dataframe indices start
at `idx`) into `valid_rows` and `rejected_rows`. -/
def chunkSplit (va vc vd : List String) (fileName : String) :
    ℕ → List RawRow → List FlightRow × List RejectedRecord
  | _, [] => ([], [])
  | idx, r :: rest =>
    if rejectionReasons va vc vd r = [] then
      (buildFlightRow r :: (chunkSplit va vc vd fileName (idx + 1) rest).1,
       (chunkSplit va vc vd fileName (idx + 1) rest).2)
    else
      ((chunkSplit va vc vd fileName (idx + 1) rest).1,
       mkRejectedRecord fileName idx r (rejectionReasons va vc vd r) ::
         (chunkSplit va vc vd fileName (idx + 1) rest).2)

/-- The natural key of the `flights` conflict target:
`(flight_date, carrier_code, flight_number, origin_airport)`. -/
def flightKey (f : FlightRow) : String × String × Option ℤ × String :=
  (f.flightDate, f.carrierCode, f.flightNumber, f.originAirport)

/-- `INSERT INTO flights ... ON CONFLICT (natural key) DO NOTHING`, one row:
skipped when a row with the same key is already present (PostgreSQL DO
NOTHING also skips conflicts against rows inserted earlier in the same
statement, hence the left fold below). -/
def insertFlight (tbl : List FlightRow) (f : FlightRow) : List FlightRow :=
  if tbl.any (fun x => flightKey x = flightKey f) then tbl else tbl ++ [f]

def insertFlights (tbl : List FlightRow) (rows : List FlightRow) : List FlightRow :=
  rows.foldl insertFlight tbl

/-- One row of the `pipeline_runs` ledger (timestamps omitted). -/
structure LedgerRow where
  fileName : String
  source : String
  rowsProcessed : ℕ
  rowsLoaded : ℕ
  rowsRejected : ℕ
  status : String
deriving DecidableEq, Repr

def ledgerKeyMatch (fileName source : String) (r : LedgerRow) : Bool :=
  r.fileName = fileName && r.source = source

/-- The flights-stage ledger upsert: `ON CONFLICT (file_name, source) DO
UPDATE SET rows_loaded, rows_rejected, status, completed_at` — note that
`rows_processed` is NOT updated on conflict. -/
def upsertLedgerFlights (tbl : List LedgerRow) (new : LedgerRow) : List LedgerRow :=
  if tbl.any (ledgerKeyMatch new.fileName new.source) then
    tbl.map (fun r =>
      if ledgerKeyMatch new.fileName new.source r then
        { r with rowsLoaded := new.rowsLoaded, rowsRejected := new.rowsRejected,
                 status := new.status }
      else r)
  else tbl ++ [new]

/-- The airports/weather-stage ledger upsert: `ON CONFLICT (file_name,
source) DO UPDATE SET rows_loaded, status, completed_at` — neither
`rows_processed` nor `rows_rejected` is updated on conflict. -/
def upsertLedgerLoadedStatus (tbl : List LedgerRow) (new : LedgerRow) : List LedgerRow :=
  if tbl.any (ledgerKeyMatch new.fileName new.source) then
    tbl.map (fun r =>
      if ledgerKeyMatch new.fileName new.source r then
        { r with rowsLoaded := new.rowsLoaded, status := new.status }
      else r)
  else tbl ++ [new]

/-- The warehouse state touched by `load_flights`. -/
structure FlightsDB where
  flights : List FlightRow
  rejected : List RejectedRecord
  dateDim : List DateDimRow
  ledger : List LedgerRow

/-- Step B of a chunk: bulk insert of the valid rows (conflict do-nothing)
and append of the rejected rows, committed together. -/
def commitChunk (db : FlightsDB) (vs : List FlightRow) (rs : List RejectedRecord) :
    FlightsDB :=
  { db with flights := insertFlights db.flights vs, rejected := db.rejected ++ rs }

/-- Result of running the chunk loop of one file. -/
structure ChunkRunResult where
  db : FlightsDB
  loaded : ℕ
  rejected : ℕ
  aborted : Bool

/-- The chunk loop of `load_flights` for one file.  Each chunk carries a
flag saying whether its database write succeeds; an unrecoverable write
error (flag `false`) propagates, ending the loop with the state committed
so far.  `idx` is the dataframe index of the chunk's first row; `l`/`r`
accumulate `file_loaded`/`file_rejected`. -/
def processChunksF (va vc vd : List String) (fileName : String) :
    List (List RawRow × Bool) → ℕ → FlightsDB → ℕ → ℕ → ChunkRunResult
  | [], _, db, l, r => ⟨db, l, r, false⟩
  | (c, ok) :: rest, idx, db, l, r =>
    let (vs, rs) := chunkSplit va vc vd fileName idx c
    if ok then
      processChunksF va vc vd fileName rest (idx + c.length)
        (commitChunk db vs rs) (l + vs.length) (r + rs.length)
    else ⟨db, l, r, true⟩

/-- Processing of one file after its chunks are formed: run the chunk loop;
only when every chunk committed is the `(file_name, 'flights')` ledger row
upserted with final counts and status completed. -/
def processOneFile (va vc vd : List String) (fileName : String) (totalRows : ℕ)
    (chunks : List (List RawRow × Bool)) (db : FlightsDB) : ChunkRunResult :=
  let res := processChunksF va vc vd fileName chunks 0 db 0 0
  if res.aborted then res
  else { res with
    db := { res.db with
      ledger := upsertLedgerFlights res.db.ledger
        ⟨fileName, "flights", totalRows, res.loaded, res.rejected, "completed"⟩ } }

/-- `range(0, len(df), CHUNK_SIZE)` slicing of a row list. -/
def chunksOf (n : ℕ) (l : List α) : List (List α) :=
  if l.length = 0 then []
  else if n = 0 then []
  else l.take n :: chunksOf n (l.drop n)
termination_by l.length
decreasing_by
  simp only [List.length_drop]
  omega

theorem chunksOf_flatten (n : ℕ) (hn : 0 < n) :
    ∀ l : List α, (chunksOf n l).flatten = l := by
  have H : ∀ (k : ℕ) (l : List α), l.length ≤ k → (chunksOf n l).flatten = l := by
    intro k
    induction k with
    | zero =>
      intro l hl
      have : l = [] := List.eq_nil_of_length_eq_zero (Nat.le_zero.mp hl)
      subst this
      rw [chunksOf]
      simp
    | succ k ih =>
      intro l hl
      rw [chunksOf]
      by_cases h0 : l.length = 0
      · simp [h0, List.eq_nil_of_length_eq_zero h0]
      · simp only [h0, if_false, Nat.pos_iff_ne_zero.mp hn, List.flatten]
        rw [ih (l.drop n) (by simp only [List.length_drop]; omega)]
        exact List.take_append_drop n l
  exact fun l => H l.length l le_rfl

/-- The per-file "add missing dates" step: the set of (canonical) dates
appearing in the file.  `pd.to_datetime` raises on an unparseable date,
aborting the stage; this definition models the successful path, on which
every `FlightDate` parses. -/
def datesInFile (rows : List RawRow) : List String :=
  ((rows.filterMap (fun r => parseDate (pyStrip r.flightDate))).map dateStr).dedup

/-- `missing_dates = dates_in_file - valid_dates`. -/
def missingDates (vd : List String) (rows : List RawRow) : List String :=
  (datesInFile rows).filter (fun s => decide (s ∉ vd))

/-- `valid_dates` after `valid_dates.update(missing_dates)` — the date set
every row of this file is validated against. -/
def effectiveDates (vd : List String) (rows : List RawRow) : List String :=
  vd ++ missingDates vd rows

/-- `INSERT INTO date_dim ... ON CONFLICT (date_id) DO NOTHING`. -/
def insertDateDim (tbl : List DateDimRow) (rows : List DateDimRow) : List DateDimRow :=
  rows.foldl (fun t d => if t.any (fun x => x.dateId = d.dateId) then t else t ++ [d]) tbl

/-- `load_flights` on a single new file, successful path: insert the file's
missing dates into `date_dim` and extend `valid_dates` BEFORE the chunk
loop, then process every chunk and complete the ledger row.  Returns the
run result together with the updated `valid_dates` (the set is mutated and
carried over to later files). -/
def processFile (va vc vd : List String) (fileName : String) (chunkSize : ℕ)
    (rows : List RawRow) (db : FlightsDB) : ChunkRunResult × List String :=
  let vdNew := effectiveDates vd rows
  let db1 := { db with dateDim := insertDateDim db.dateDim (ensureDatesExist (missingDates vd rows)) }
  let chunks := (chunksOf chunkSize rows).map (fun c => (c, true))
  (processOneFile va vc vdNew fileName rows.length chunks db1, vdNew)

/-! ## File discovery (`s3_helper.list_files` + steps 1–3 of `load_flights`) -/

/-- `s3_helper.list_files`: returns the listing, but catches EVERY exception
(connectivity loss included) and returns the empty list instead. -/
def list_files (listing : Except Unit (List String)) : List String :=
  match listing with
  | .ok keys => keys
  | .error _ => []

def lowerStr (s : String) : String := ⟨s.data.map Char.toLower⟩

/-- Boolean list-prefix test (structural, kernel-reducible). -/
def isPrefixB [DecidableEq α] : List α → List α → Bool
  | [], _ => true
  | _ :: _, [] => false
  | a :: as, b :: bs => decide (a = b) && isPrefixB as bs

/-- Boolean list-infix test. -/
def isInfixB [DecidableEq α] (needle : List α) : List α → Bool
  | [] => isPrefixB needle []
  | b :: bs => isPrefixB needle (b :: bs) || isInfixB needle bs

/-- Python `s.endswith(suffix)`. -/
def strEndsWith (s suffix : String) : Bool :=
  isPrefixB suffix.data.reverse s.data.reverse

/-- Python `needle in hay` on strings. -/
def strContains (hay needle : String) : Bool :=
  isInfixB needle.data hay.data

/-- `[f for f in all_files if f.endswith('.csv') and 'airport' not in f.lower()]`. -/
def csvFilter (files : List String) : List String :=
  files.filter (fun f => strEndsWith f ".csv" && !(strContains (lowerStr f) "airport"))

/-- `f.split('/')[-1]`. -/
def baseName (f : String) : String :=
  ⟨(splitOnChar '/' f.data).getLastD f.data⟩

/-- Step 2 of `load_flights`: files with a completed flights ledger row. -/
def completedFlightFiles (ledger : List LedgerRow) : List String :=
  (ledger.filter (fun r => r.source = "flights" && r.status = "completed")).map
    (fun r => r.fileName)

/-- Step 3 of `load_flights`: `new_files`. -/
def newFiles (csvFiles processedFiles : List String) : List String :=
  csvFiles.filter (fun f => decide (baseName f ∉ processedFiles))

/-- Pair each chunk with the success flag of its database write. -/
def attachFlags (writeOk : ℕ → Bool) (chunks : List (List RawRow)) :
    List (List RawRow × Bool) :=
  (chunks.zip (List.range chunks.length)).map (fun p => (p.1, writeOk p.2))

/-- The per-file loop of `load_flights` (step 5).  `fetch` models
`s3.get_object` + `pd.read_csv` (its error is a raised exception);
`writeOk` models per-file, per-chunk write success.  `valid_dates` (`vd`)
is threaded through because the code mutates it across files. -/
def runFiles (va vc : List String) (fetch : String → Except Unit (List RawRow))
    (writeOk : String → ℕ → Bool) (chunkSize : ℕ) :
    List String → List String → FlightsDB → ℕ → ℕ → ℕ →
    FlightsDB × Except Unit (ℕ × ℕ × ℕ)
  | [], _, db, fp, gl, gr => (db, .ok (fp, gl, gr))
  | fk :: rest, vd, db, fp, gl, gr =>
    match fetch fk with
    | .error e => (db, .error e)
    | .ok rows =>
      let fileName := baseName fk
      let vdNew := effectiveDates vd rows
      let db1 := { db with
        dateDim := insertDateDim db.dateDim (ensureDatesExist (missingDates vd rows)) }
      let res := processOneFile va vc vdNew fileName rows.length
        (attachFlags (writeOk fileName) (chunksOf chunkSize rows)) db1
      if res.aborted then (res.db, .error ())
      else runFiles va vc fetch writeOk chunkSize rest vdNew res.db
        (fp + 1) (gl + res.loaded) (gr + res.rejected)

/-- `load_flights` end to end: list the bucket (exceptions swallowed by
`list_files`), filter to CSV fact files, skip files with a completed
ledger row, return `files_processed = 0` when nothing is new, otherwise
process each new file.  `va`/`vc`/`vd` are the per-run snapshots read from
the dimension tables in step 4. -/
def load_flights (listing : Except Unit (List String))
    (fetch : String → Except Unit (List RawRow)) (writeOk : String → ℕ → Bool)
    (chunkSize : ℕ) (va vc vd : List String) (db : FlightsDB) :
    FlightsDB × Except Unit (ℕ × ℕ × ℕ) :=
  let csvFiles := csvFilter (list_files listing)
  let nf := newFiles csvFiles (completedFlightFiles db.ledger)
  if nf = [] then (db, .ok (0, 0, 0))
  else runFiles va vc fetch writeOk chunkSize nf vd db 0 0 0

/-! ## Airports dimension loader (`load_airports`) -/

/-- A raw `airports.dat` row (columns used by the insert). -/
structure AirportRawRow where
  airportCode : PyVal
  airportName : String
  city : String
  country : String
  latitude : ℚ
  longitude : ℚ
deriving DecidableEq, Repr

/-- One row of the `airports` table. -/
structure AirportRow where
  airportCode : String
  airportName : String
  city : String
  country : String
  latitude : ℚ
  longitude : ℚ
deriving DecidableEq, Repr

/-- The two dataframe filters: keep rows whose IATA code is present, not
the OpenFlights null marker, and exactly 3 characters long. -/
def iataFilter (rows : List AirportRawRow) : List AirportRawRow :=
  rows.filter (fun r =>
    match r.airportCode with
    | .vstr s => decide (s ≠ "\\N") && decide (s.length = 3)
    | _ => false)

/-- `df.drop_duplicates(subset='airport_code', keep='first')`: keep a row
only when its code has not been seen earlier in the frame. -/
def dropDupGo (seen : List PyVal) : List AirportRawRow → List AirportRawRow
  | [] => []
  | r :: rest =>
    if r.airportCode ∈ seen then dropDupGo seen rest
    else r :: dropDupGo (r.airportCode :: seen) rest

def dropDuplicatesFirst (rows : List AirportRawRow) : List AirportRawRow :=
  dropDupGo [] rows

def toAirportRow (r : AirportRawRow) : AirportRow where
  airportCode := pyStr r.airportCode
  airportName := r.airportName
  city := r.city
  country := r.country
  latitude := r.latitude
  longitude := r.longitude

/-- `INSERT INTO airports ... ON CONFLICT (airport_code) DO NOTHING`,
executed row by row. -/
def insertAirports (tbl : List AirportRow) (rows : List AirportRow) : List AirportRow :=
  rows.foldl
    (fun t r =>
      if t.any (fun x => x.airportCode = r.airportCode) then t else t ++ [r]) tbl

structure AirportsDB where
  airports : List AirportRow
  ledger : List LedgerRow

/-- `load_airports`: filter, de-duplicate keeping the first occurrence,
insert with conflict do-nothing, then upsert the ledger row.  The loop
increments `rows_loaded` once per dataframe row regardless of conflicts,
so it equals `len(df)`. -/
def load_airports (raw : List AirportRawRow) (db : AirportsDB) : AirportsDB :=
  let df := dropDuplicatesFirst (iataFilter raw)
  { airports := insertAirports db.airports (df.map toAirportRow),
    ledger := upsertLedgerLoadedStatus db.ledger
      ⟨"airports.dat", "airports", df.length, df.length, 0, "completed"⟩ }

/-! ## Weather loader (`load_weather`) -/

/-- One weather observation (the columns relevant to the key and a sample
of the payload). -/
structure WeatherObs where
  airportCode : String
  observationDate : String
  observationTime : String
  avgTemperature : Option ℚ
  precipitation : Option ℚ
  conditions : String
deriving DecidableEq, Repr

/-- The conflict target `(airport_code, observation_time)`. -/
def wKey (o : WeatherObs) : String × String := (o.airportCode, o.observationTime)

/-- `INSERT INTO weather_observations ... ON CONFLICT (airport_code,
observation_time) DO NOTHING`. -/
def insertWeather (tbl : List WeatherObs) (o : WeatherObs) : List WeatherObs :=
  if tbl.any (fun x => wKey x = wKey o) then tbl else tbl ++ [o]

structure WeatherDB where
  observations : List WeatherObs
  ledger : List LedgerRow

/-- Step 6 of `load_weather`: skip observations whose key is in the
pre-computed existence set, insert the rest, counting `loaded`/`skipped`. -/
def weatherLoop (existing : List (String × String)) :
    List WeatherObs → List WeatherObs → ℕ → ℕ → List WeatherObs × ℕ × ℕ
  | [], tbl, loaded, skipped => (tbl, loaded, skipped)
  | o :: rest, tbl, loaded, skipped =>
    if wKey o ∈ existing then weatherLoop existing rest tbl loaded (skipped + 1)
    else weatherLoop existing rest (insertWeather tbl o) (loaded + 1) skipped

/-- `load_weather` steps 3, 6 and 7: build the existence set, run the
insert loop, then upsert the `('iem_hourly_weather', 'weather')` ledger
row with `rows_processed = len(weather_data)`, `rows_loaded = loaded`,
`rows_rejected = 0`. -/
def load_weather (weatherData : List WeatherObs) (db : WeatherDB) : WeatherDB :=
  let existing := db.observations.map wKey
  let res := weatherLoop existing weatherData db.observations 0 0
  { observations := res.1,
    ledger := upsertLedgerLoadedStatus db.ledger
      ⟨"iem_hourly_weather", "weather", weatherData.length, res.2.1, 0, "completed"⟩ }

/-! ## Quality gate (`run_quality_checks`) -/

/-- The aggregates `run_quality_checks` reads from the warehouse:
row counts, orphan counts, the out-of-range delay count, the most recent
flights ledger counters (`rows_loaded`, `rows_rejected`), and the weather
coverage counts. -/
structure QCState where
  airportCount : ℕ
  carrierCount : ℕ
  flightCount : ℕ
  orphanOrigin : ℕ
  orphanDest : ℕ
  badDelays : ℕ
  lastFlightsRun : Option (ℕ × ℕ)
  weatherObsCount : ℕ
  airportsWithWeather : ℕ
  datesWithWeather : ℕ
deriving DecidableEq, Repr

/-- `reject_rate = rejected / (loaded + rejected) * 100`. -/
def rejectRate (loaded rejected : ℕ) : ℚ :=
  (rejected : ℚ) / ((loaded : ℚ) + (rejected : ℚ)) * 100

/-- `checks_failed` after the ten checks.  Check 7 (the rejection rate)
contributes only when a most-recent flights ledger row exists AND its
`rows_loaded` is positive. -/
def checksFailed (s : QCState) : ℕ :=
  (if 0 < s.airportCount then 0 else 1) +
  (if 0 < s.carrierCount then 0 else 1) +
  (if 0 < s.flightCount then 0 else 1) +
  (if s.orphanOrigin = 0 then 0 else 1) +
  (if s.orphanDest = 0 then 0 else 1) +
  (if s.badDelays = 0 then 0 else 1) +
  (match s.lastFlightsRun with
   | none => 0
   | some lr =>
     if 0 < lr.1 then (if rejectRate lr.1 lr.2 < 5 then 0 else 1) else 0) +
  (if 0 < s.weatherObsCount then 0 else 1) +
  (if 0 < s.airportsWithWeather then 0 else 1) +
  (if 0 < s.datesWithWeather then 0 else 1)

/-- `run_quality_checks` raises iff `checks_failed > 0`. -/
def qualityGateRaises (s : QCState) : Bool := decide (0 < checksFailed s)

/-- All checks other than check 7 pass. -/
def otherChecksPass (s : QCState) : Bool :=
  decide (0 < s.airportCount) && decide (0 < s.carrierCount) &&
  decide (0 < s.flightCount) && decide (s.orphanOrigin = 0) &&
  decide (s.orphanDest = 0) && decide (s.badDelays = 0) &&
  decide (0 < s.weatherObsCount) && decide (0 < s.airportsWithWeather) &&
  decide (0 < s.datesWithWeather)

/-- A concrete CSV row whose optional columns are all missing. -/
def sampleRawRow (o d c fd : String) : RawRow :=
  ⟨o, d, c, fd, fun _ => PyVal.na⟩

/-- A concrete weather observation used in concrete scenarios. -/
def wObsA : WeatherObs :=
  ⟨"ATL", "2024-01-06", "2024-01-06 00:00", none, none, "Clear"⟩

/-! # Theorems -/

/-! Sanity checks: the embedded helpers evaluate as the Python code does. -/

example : safe_float (.vstr "12.5") = some (25 / 2 : ℚ) := by
  simp [safe_float, pyFloatOpt, parseFloat, pyStrip, parseUnsignedFloat]
  norm_num
example : safe_float (.vstr "abc") = none := by decide
example : safe_float .na = none := by decide
example : safe_int (.vstr "123.0") = some 123 := by
  simp [safe_int, pyFloatOpt, parseFloat, pyStrip, parseUnsignedFloat, truncInt]
example : safe_str (.vstr "  x ") = some "x" := by decide
example : safe_str (.vstr " ") = some "" := by decide
example : safe_bool (.vstr "1.0") = true := by
  simp [safe_bool, pyFloatOpt, parseFloat, pyStrip, parseUnsignedFloat, truncInt]
example : safe_bool .na = false := by decide
example : safe_bool (.vnum 0) = false := by decide
example : pyWeekday ⟨1970, 1, 1⟩ = 3 := by decide
example : pyWeekday ⟨2024, 1, 6⟩ = 5 := by decide
example : (ensureDateRow ⟨2024, 1, 6⟩).isWeekend = true := by decide
example : (ensureDateRow ⟨2024, 1, 6⟩).dayName = "Saturday" := by decide
example : (ensureDateRow ⟨2024, 1, 6⟩).season = "Winter" := by decide
example : (ensureDateRow ⟨2024, 1, 6⟩).quarter = 1 := by decide
example : parseDate "2024-01-06" = some ⟨2024, 1, 6⟩ := by decide
example : parseDate "2023-02-29" = none := by decide
example : dateStr ⟨2024, 1, 6⟩ = "2024-01-06" := by decide
example : list_files (.error ()) = [] := by decide
example : baseName "raw/flights_2024.csv" = "flights_2024.csv" := by decide
example : csvFilter ["raw/airports.dat", "raw/f1.csv"] = ["raw/f1.csv"] := by decide
example : newFiles ["raw/f1.csv", "raw/f2.csv"] ["f1.csv"] = ["raw/f2.csv"] := by decide

theorem rejectionReasons_eq_nil_iff (va vc vd : List String) (r : RawRow) :
    rejectionReasons va vc vd r = [] ↔
      pyStrip r.origin ∈ va ∧ pyStrip r.dest ∈ va ∧
      pyStrip r.carrier ∈ vc ∧ pyStrip r.flightDate ∈ vd := by
  unfold rejectionReasons
  split_ifs <;> simp_all

theorem rejectionReasons_length (va vc vd : List String) (r : RawRow) :
    (rejectionReasons va vc vd r).length =
      (if pyStrip r.origin ∈ va then 0 else 1) +
      (if pyStrip r.dest ∈ va then 0 else 1) +
      (if pyStrip r.carrier ∈ vc then 0 else 1) +
      (if pyStrip r.flightDate ∈ vd then 0 else 1) := by
  unfold rejectionReasons
  split_ifs <;> simp_all

theorem chunkSplit_length_partition (va vc vd : List String) (fn : String) :
    ∀ (rows : List RawRow) (idx : ℕ),
      (chunkSplit va vc vd fn idx rows).1.length +
        (chunkSplit va vc vd fn idx rows).2.length = rows.length := by
  intro rows
  induction rows with
  | nil => intro idx; simp [chunkSplit]
  | cons r rest ih =>
    intro idx
    have hih := ih (idx + 1)
    by_cases h : rejectionReasons va vc vd r = [] <;>
      simp [chunkSplit, h] <;> omega

/-- C1: a processed row is rejected iff at least one of origin, destination,
carrier, flight date is absent from the snapshot sets; acceptance means all
four are present; each failing check contributes its own reason; and every
chunk row ends up in exactly one of `valid_rows` / `rejected_rows`. -/
theorem load_flights_row_partition (va vc vd : List String) (fileName : String) :
    (∀ r : RawRow,
      (rejectionReasons va vc vd r ≠ [] ↔
        (pyStrip r.origin ∉ va ∨ pyStrip r.dest ∉ va ∨
         pyStrip r.carrier ∉ vc ∨ pyStrip r.flightDate ∉ vd)) ∧
      (rejectionReasons va vc vd r = [] ↔
        (pyStrip r.origin ∈ va ∧ pyStrip r.dest ∈ va ∧
         pyStrip r.carrier ∈ vc ∧ pyStrip r.flightDate ∈ vd)) ∧
      ((rejectionReasons va vc vd r).length =
        (if pyStrip r.origin ∈ va then 0 else 1) +
        (if pyStrip r.dest ∈ va then 0 else 1) +
        (if pyStrip r.carrier ∈ vc then 0 else 1) +
        (if pyStrip r.flightDate ∈ vd then 0 else 1)) ∧
      (pyStrip r.origin ∉ va →
        ("Unknown origin airport: " ++ pyStrip r.origin) ∈ rejectionReasons va vc vd r) ∧
      (pyStrip r.dest ∉ va →
        ("Unknown dest airport: " ++ pyStrip r.dest) ∈ rejectionReasons va vc vd r) ∧
      (pyStrip r.carrier ∉ vc →
        ("Unknown carrier: " ++ pyStrip r.carrier) ∈ rejectionReasons va vc vd r) ∧
      (pyStrip r.flightDate ∉ vd →
        ("Unknown date: " ++ pyStrip r.flightDate) ∈ rejectionReasons va vc vd r)) ∧
    (∀ (rows : List RawRow) (idx : ℕ),
      (chunkSplit va vc vd fileName idx rows).1.length +
        (chunkSplit va vc vd fileName idx rows).2.length = rows.length) := by
  constructor
  · intro r
    refine ⟨?_, rejectionReasons_eq_nil_iff va vc vd r, rejectionReasons_length va vc vd r,
      ?_, ?_, ?_, ?_⟩
    · rw [not_iff_comm, not_or, not_or, not_or]
      simp only [not_not]
      exact (rejectionReasons_eq_nil_iff va vc vd r).symm.trans (by tauto)
    all_goals
      intro h
      unfold rejectionReasons
      split_ifs <;> simp_all
  · exact chunkSplit_length_partition va vc vd fileName

theorem load_flights_row_partition_witness :
    (pyStrip "ZZZ" ∉ (["AAA"] : List String)) ∧
    ("Unknown origin airport: " ++ pyStrip "ZZZ") ∈
      rejectionReasons ["AAA"] ["DL"] ["2024-01-06"]
        (sampleRawRow "ZZZ" "AAA" "DL" "2024-01-06") :=
  ⟨by decide,
   ((load_flights_row_partition ["AAA"] ["DL"] ["2024-01-06"] "f.csv").1
      (sampleRawRow "ZZZ" "AAA" "DL" "2024-01-06")).2.2.2.1 (by decide)⟩

/-- C7 counterexample: a whitespace-only string trims to the empty string,
yet `safe_str` returns `some ""` rather than `None` — the emptiness test
`val == ''` runs BEFORE stripping. -/
theorem safe_str_whitespace_not_null :
    pyStrip " " = "" ∧ safe_str (PyVal.vstr " ") = some "" ∧
      safe_str (PyVal.vstr " ") ≠ none := by
  refine ⟨by decide, by decide, by decide⟩

/-- C7 (amended): `safe_float` / `safe_int` yield null exactly for missing
values, the untrimmed empty string, or values whose conversion to a number
fails; `safe_str` yields the stripped string, null exactly for missing
values and the UNTRIMMED empty string (a whitespace-only string therefore
becomes the empty string, not null). -/
theorem safe_helpers_null_policy :
    (∀ v, safe_float v = none ↔
      (v = PyVal.na ∨ v = PyVal.vstr "" ∨ pyFloatOpt v = none)) ∧
    (∀ v, safe_int v = none ↔
      (v = PyVal.na ∨ v = PyVal.vstr "" ∨ pyFloatOpt v = none)) ∧
    (∀ s, safe_str (PyVal.vstr s) = if s = "" then none else some (pyStrip s)) ∧
    safe_str PyVal.na = none := by
  refine ⟨?_, ?_, ?_, by decide⟩
  · intro v
    by_cases h : v = PyVal.na ∨ v = PyVal.vstr ""
    · constructor
      · intro _
        rcases h with h | h <;> simp [h]
      · intro _
        simp [safe_float, h]
    · push_neg at h
      simp [safe_float, h.1, h.2]
  · intro v
    by_cases h : v = PyVal.na ∨ v = PyVal.vstr ""
    · constructor
      · intro _
        rcases h with h | h <;> simp [h]
      · intro _
        simp [safe_int, h]
    · push_neg at h
      simp [safe_int, h.1, h.2, Option.map_eq_none]
  · intro s
    by_cases h : s = "" <;> simp [safe_str, pyStr, h]

/-- C10: `safe_bool` is total with codomain `Bool` (never null); every value
whose numeric conversion fails — missing values included — maps to `False`,
so a missing 0/1 flag is stored as `False`, indistinguishable from an
explicit 0. -/
theorem safe_bool_total_never_null :
    (∀ v, safe_bool v = true ∨ safe_bool v = false) ∧
    (∀ v, pyFloatOpt v = none → safe_bool v = false) ∧
    safe_bool PyVal.na = false ∧
    safe_bool (PyVal.vnum 0) = false ∧
    safe_bool PyVal.na = safe_bool (PyVal.vnum 0) := by
  refine ⟨fun v => Bool.eq_false_or_eq_true (safe_bool v), ?_,
    by decide, ?_, ?_⟩
  · intro v h
    simp [safe_bool, h]
  · simp [safe_bool, pyFloatOpt, truncInt]
  · simp [safe_bool, pyFloatOpt, truncInt]

theorem safe_bool_total_never_null_witness :
    pyFloatOpt (PyVal.vstr "bad") = none ∧ safe_bool (PyVal.vstr "bad") = false :=
  ⟨by decide, safe_bool_total_never_null.2.1 (PyVal.vstr "bad") (by decide)⟩

theorem find?_append_of_some {α : Type} (p : α → Bool) :
    ∀ (l1 l2 : List α) (a : α), l1.find? p = some a → (l1 ++ l2).find? p = some a := by
  intro l1
  induction l1 with
  | nil => intro l2 a h; simp at h
  | cons x xs ih =>
    intro l2 a h
    by_cases hx : p x
    · rw [List.find?_cons_of_pos _ hx] at h
      rw [List.cons_append, List.find?_cons_of_pos _ hx]
      exact h
    · rw [List.find?_cons_of_neg _ (by simp [hx])] at h
      rw [List.cons_append, List.find?_cons_of_neg _ (by simp [hx])]
      exact ih l2 a h

theorem dropDupGo_find? (c : PyVal) :
    ∀ (rows : List AirportRawRow) (seen : List PyVal), c ∉ seen →
      (dropDupGo seen rows).find? (fun r => decide (r.airportCode = c)) =
        rows.find? (fun r => decide (r.airportCode = c)) := by
  intro rows
  induction rows with
  | nil => intro seen _; rfl
  | cons r rest ih =>
    intro seen hc
    by_cases hmem : r.airportCode ∈ seen
    · have hne : r.airportCode ≠ c := fun he => hc (he ▸ hmem)
      simp only [dropDupGo, hmem, if_true]
      rw [List.find?_cons_of_neg _ (by simp [hne])]
      exact ih seen hc
    · by_cases heq : r.airportCode = c
      · simp only [dropDupGo, hmem, if_false]
        rw [List.find?_cons_of_pos _ (by simp [heq]),
          List.find?_cons_of_pos _ (by simp [heq])]
      · simp only [dropDupGo, hmem, if_false]
        rw [List.find?_cons_of_neg _ (by simp [heq]),
          List.find?_cons_of_neg _ (by simp [heq])]
        exact ih (r.airportCode :: seen)
          (by simp only [List.mem_cons, not_or]; exact ⟨fun h => heq h.symm, hc⟩)

theorem insertAirports_preserves (c : String) :
    ∀ (rows tbl : List AirportRow) (a : AirportRow),
      tbl.find? (fun r => decide (r.airportCode = c)) = some a →
      (insertAirports tbl rows).find? (fun r => decide (r.airportCode = c)) = some a := by
  intro rows
  induction rows with
  | nil => intro tbl a h; exact h
  | cons r rest ih =>
    intro tbl a h
    simp only [insertAirports, List.foldl] at ih ⊢
    by_cases hany : tbl.any (fun x => decide (x.airportCode = r.airportCode))
    · simp only [hany, if_true]
      exact ih tbl a h
    · simp only [hany, if_false]
      exact ih (tbl ++ [r]) a (find?_append_of_some _ tbl [r] a h)

/-- C8: when reference data holds several rows with the same IATA code, only
the first-seen row's values survive: within a run, `drop_duplicates
keep='first'` leaves lookups of any code unchanged from the raw frame
(which resolve to the first matching row); across runs, the row already in
the table for a code is untouched by further inserts (conflict
do-nothing). -/
theorem load_airports_first_seen :
    (∀ (rows : List AirportRawRow) (c : PyVal),
      (dropDuplicatesFirst rows).find? (fun r => decide (r.airportCode = c)) =
        rows.find? (fun r => decide (r.airportCode = c))) ∧
    (∀ (tbl rows : List AirportRow) (c : String) (a : AirportRow),
      tbl.find? (fun r => decide (r.airportCode = c)) = some a →
      (insertAirports tbl rows).find? (fun r => decide (r.airportCode = c)) = some a) :=
  ⟨fun rows c => dropDupGo_find? c rows [] (by simp),
   fun tbl rows c a h => insertAirports_preserves c rows tbl a h⟩

theorem load_airports_first_seen_witness :
    ((dropDuplicatesFirst
        [⟨PyVal.vstr "ATL", "first", "Atlanta", "US", 1, 2⟩,
         ⟨PyVal.vstr "ATL", "second", "Atlanta", "US", 3, 4⟩]).find?
      (fun r => decide (r.airportCode = PyVal.vstr "ATL")) =
        some ⟨PyVal.vstr "ATL", "first", "Atlanta", "US", 1, 2⟩) ∧
    ((insertAirports [⟨"ATL", "first", "Atlanta", "US", 1, 2⟩]
        [⟨"ATL", "second", "Atlanta", "US", 3, 4⟩]).find?
      (fun r => decide (r.airportCode = "ATL")) =
        some ⟨"ATL", "first", "Atlanta", "US", 1, 2⟩) := by
  constructor
  · rw [load_airports_first_seen.1
      [⟨PyVal.vstr "ATL", "first", "Atlanta", "US", 1, 2⟩,
       ⟨PyVal.vstr "ATL", "second", "Atlanta", "US", 3, 4⟩] (PyVal.vstr "ATL")]
    decide
  · exact load_airports_first_seen.2 [⟨"ATL", "first", "Atlanta", "US", 1, 2⟩]
      [⟨"ATL", "second", "Atlanta", "US", 3, 4⟩] "ATL"
      ⟨"ATL", "first", "Atlanta", "US", 1, 2⟩ (by decide)

theorem weatherLoop_loaded_count (existing : List (String × String)) :
    ∀ (data tbl : List WeatherObs) (l s : ℕ),
      (weatherLoop existing data tbl l s).2.1 =
        l + (data.filter (fun o => decide (wKey o ∉ existing))).length := by
  intro data
  induction data with
  | nil => intro tbl l s; simp [weatherLoop]
  | cons o rest ih =>
    intro tbl l s
    by_cases h : wKey o ∈ existing
    · simp [weatherLoop, h, ih]
    · simp [weatherLoop, h, ih]
      omega

theorem weatherLoop_full_overlap (existing : List (String × String)) :
    ∀ (data tbl : List WeatherObs) (l s : ℕ),
      (∀ o ∈ data, wKey o ∈ existing) →
      (weatherLoop existing data tbl l s).1 = tbl := by
  intro data
  induction data with
  | nil => intro tbl l s _; rfl
  | cons o rest ih =>
    intro tbl l s h
    have ho := h o (by simp)
    simp only [weatherLoop, ho, if_true]
    exact ih tbl l (s + 1) (fun x hx => h x (by simp [hx]))

theorem insertWeather_pairwise (tbl : List WeatherObs) (o : WeatherObs)
    (h : List.Pairwise (fun a b => wKey a ≠ wKey b) tbl) :
    List.Pairwise (fun a b => wKey a ≠ wKey b) (insertWeather tbl o) := by
  by_cases hany : tbl.any (fun x => decide (wKey x = wKey o))
  · simpa [insertWeather, hany] using h
  · have he : insertWeather tbl o = tbl ++ [o] := by
      unfold insertWeather
      rw [if_neg hany]
    rw [he, List.pairwise_append]
    refine ⟨h, by simp, ?_⟩
    intro a ha b hb
    simp only [List.mem_singleton] at hb
    subst hb
    simp only [List.any_eq_true, not_exists, not_and] at hany
    intro hk
    exact absurd (by simpa using hany a ha) (by simp [hk])

theorem weatherLoop_pairwise (existing : List (String × String)) :
    ∀ (data tbl : List WeatherObs) (l s : ℕ),
      List.Pairwise (fun a b => wKey a ≠ wKey b) tbl →
      List.Pairwise (fun a b => wKey a ≠ wKey b) (weatherLoop existing data tbl l s).1 := by
  intro data
  induction data with
  | nil => intro tbl l s h; exact h
  | cons o rest ih =>
    intro tbl l s h
    by_cases hm : wKey o ∈ existing
    · simp only [weatherLoop, hm, if_true]
      exact ih tbl l (s + 1) h
    · simp only [weatherLoop, hm, if_false]
      exact ih (insertWeather tbl o) (l + 1) s (insertWeather_pairwise tbl o h)

/-- C9: re-running the weather loader with an overlapping observation set
leaves the `(airport_code, observation_time)` keys duplicate-free; the
`loaded` counter counts exactly the observations whose key is NOT in the
existence set, so previously-seen pairs are all skipped; on full overlap
the table is unchanged and `loaded = 0`. -/
theorem load_weather_overlap_dedup (db : WeatherDB) (data : List WeatherObs) :
    (List.Pairwise (fun a b => wKey a ≠ wKey b) db.observations →
      List.Pairwise (fun a b => wKey a ≠ wKey b) (load_weather data db).observations) ∧
    ((weatherLoop (db.observations.map wKey) data db.observations 0 0).2.1 =
      (data.filter (fun o => decide (wKey o ∉ db.observations.map wKey))).length) ∧
    ((∀ o ∈ data, wKey o ∈ db.observations.map wKey) →
      (load_weather data db).observations = db.observations ∧
      (weatherLoop (db.observations.map wKey) data db.observations 0 0).2.1 = 0) := by
  refine ⟨?_, ?_, ?_⟩
  · intro h
    simpa [load_weather] using
      weatherLoop_pairwise (db.observations.map wKey) data db.observations 0 0 h
  · simpa using weatherLoop_loaded_count (db.observations.map wKey) data db.observations 0 0
  · intro h
    constructor
    · simpa [load_weather] using
        weatherLoop_full_overlap (db.observations.map wKey) data db.observations 0 0 h
    · rw [weatherLoop_loaded_count (db.observations.map wKey) data db.observations 0 0]
      simp only [Nat.zero_add]
      rw [List.length_eq_zero]
      rw [List.filter_eq_nil_iff]
      intro o ho
      simp [h o ho]

theorem load_weather_overlap_dedup_witness :
    List.Pairwise (fun a b => wKey a ≠ wKey b)
      (load_weather [wObsA] ⟨[wObsA], []⟩).observations ∧
    (load_weather [wObsA] ⟨[wObsA], []⟩).observations = [wObsA] :=
  ⟨(load_weather_overlap_dedup ⟨[wObsA], []⟩ [wObsA]).1 (by simp),
   ((load_weather_overlap_dedup ⟨[wObsA], []⟩ [wObsA]).2.2 (by simp)).1⟩

theorem newFiles_excludes_completed (csvFiles processedFiles : List String)
    (f : String) (h : baseName f ∈ processedFiles) :
    f ∉ newFiles csvFiles processedFiles := by
  intro hmem
  have := (List.mem_filter.mp hmem).2
  exact (of_decide_eq_true this) h

theorem insertFlights_no_new :
    ∀ (rows tbl : List FlightRow),
      (∀ x ∈ rows, ∃ y ∈ tbl, flightKey y = flightKey x) →
      insertFlights tbl rows = tbl := by
  intro rows
  induction rows with
  | nil => intro tbl _; rfl
  | cons r rest ih =>
    intro tbl h
    obtain ⟨y, hy, hk⟩ := h r (by simp)
    have hstep : insertFlight tbl r = tbl := by
      unfold insertFlight
      rw [if_pos]
      rw [List.any_eq_true]
      exact ⟨y, hy, by simp [hk]⟩
    show insertFlights (insertFlight tbl r) rest = tbl
    rw [hstep]
    exact ih tbl (fun x hx => h x (by simp [hx]))

theorem insertFlight_pairwise (tbl : List FlightRow) (f : FlightRow)
    (h : List.Pairwise (fun a b => flightKey a ≠ flightKey b) tbl) :
    List.Pairwise (fun a b => flightKey a ≠ flightKey b) (insertFlight tbl f) := by
  by_cases hany : tbl.any (fun x => decide (flightKey x = flightKey f))
  · simpa [insertFlight, hany] using h
  · have he : insertFlight tbl f = tbl ++ [f] := by
      unfold insertFlight
      rw [if_neg hany]
    rw [he, List.pairwise_append]
    refine ⟨h, by simp, ?_⟩
    intro a ha b hb
    simp only [List.mem_singleton] at hb
    subst hb
    simp only [List.any_eq_true, not_exists, not_and] at hany
    intro hk
    exact absurd (by simpa using hany a ha) (by simp [hk])

theorem insertFlights_pairwise :
    ∀ (rows tbl : List FlightRow),
      List.Pairwise (fun a b => flightKey a ≠ flightKey b) tbl →
      List.Pairwise (fun a b => flightKey a ≠ flightKey b) (insertFlights tbl rows) := by
  intro rows
  induction rows with
  | nil => intro tbl h; exact h
  | cons r rest ih =>
    intro tbl h
    show List.Pairwise _ (insertFlights (insertFlight tbl r) rest)
    exact ih (insertFlight tbl r) (insertFlight_pairwise tbl r h)

/-- C2: a previously completed, unchanged file is excluded from `new_files`
because its name has a completed flights ledger row; re-submitted rows whose
natural key is already in the table are all absorbed by the conflict target
(zero additional rows); key-uniqueness of the committed table is preserved
by every bulk insert; and when nothing is new `load_flights` returns with
zero files processed and the database untouched. -/
theorem load_flights_second_run_idempotent :
    (∀ (csvFiles : List String) (ledger : List LedgerRow) (f : String),
      baseName f ∈ completedFlightFiles ledger →
      f ∉ newFiles csvFiles (completedFlightFiles ledger)) ∧
    (∀ (tbl rows : List FlightRow),
      (∀ x ∈ rows, ∃ y ∈ tbl, flightKey y = flightKey x) →
      insertFlights tbl rows = tbl) ∧
    (∀ (tbl rows : List FlightRow),
      List.Pairwise (fun a b => flightKey a ≠ flightKey b) tbl →
      List.Pairwise (fun a b => flightKey a ≠ flightKey b) (insertFlights tbl rows)) ∧
    (∀ (listing : Except Unit (List String)) fetch writeOk csize va vc vd
        (db : FlightsDB),
      newFiles (csvFilter (list_files listing)) (completedFlightFiles db.ledger) = [] →
      load_flights listing fetch writeOk csize va vc vd db = (db, .ok (0, 0, 0))) := by
  refine ⟨fun csvFiles ledger f h => newFiles_excludes_completed csvFiles _ f h,
    fun tbl rows h => insertFlights_no_new rows tbl h,
    fun tbl rows h => insertFlights_pairwise rows tbl h,
    ?_⟩
  intro listing fetch writeOk csize va vc vd db h
  unfold load_flights
  rw [if_pos h]

theorem load_flights_second_run_idempotent_witness :
    "raw/a.csv" ∉
      newFiles ["raw/a.csv"]
        (completedFlightFiles [⟨"a.csv", "flights", 10, 9, 1, "completed"⟩]) :=
  load_flights_second_run_idempotent.1 ["raw/a.csv"]
    [⟨"a.csv", "flights", 10, 9, 1, "completed"⟩] "raw/a.csv" (by decide)

/-- C3 counterexample: running `load_weather` a second time with the same
(regenerated) observation set leaves a completed ledger row with
`rows_loaded + rows_rejected = 0` but `rows_processed = 1`: the conflict
update overwrites `rows_loaded` with the re-run's 0 while keeping the old
`rows_processed`. -/
theorem ledger_completed_invariant_counterexample :
    ∃ r ∈ (load_weather [wObsA] (load_weather [wObsA] ⟨[], []⟩)).ledger,
      r.status = "completed" ∧ r.rowsLoaded + r.rowsRejected ≠ r.rowsProcessed := by
  refine ⟨⟨"iem_hourly_weather", "weather", 1, 0, 0, "completed"⟩, by decide, rfl, by decide⟩

theorem processChunksF_ledger (va vc vd : List String) (fn : String) :
    ∀ (chunksF : List (List RawRow × Bool)) (idx : ℕ) (db : FlightsDB) (l r : ℕ),
      (processChunksF va vc vd fn chunksF idx db l r).db.ledger = db.ledger := by
  intro chunksF
  induction chunksF with
  | nil => intro idx db l r; rfl
  | cons cf rest ih =>
    intro idx db l r
    rcases cf with ⟨c, ok⟩
    by_cases h : ok = true
    · subst h
      simp only [processChunksF, if_true]
      rw [ih]
      rfl
    · have h2 : ok = false := by revert h; cases ok <;> simp
      subst h2
      simp [processChunksF]

theorem processChunksF_all_ok (va vc vd : List String) (fn : String) :
    ∀ (chunks : List (List RawRow)) (idx : ℕ) (db : FlightsDB) (l r : ℕ),
      (processChunksF va vc vd fn (chunks.map (fun c => (c, true))) idx db l r).aborted
        = false ∧
      (processChunksF va vc vd fn (chunks.map (fun c => (c, true))) idx db l r).loaded +
        (processChunksF va vc vd fn (chunks.map (fun c => (c, true))) idx db l r).rejected
        = l + r + (chunks.map List.length).sum := by
  intro chunks
  induction chunks with
  | nil => intro idx db l r; simp [processChunksF]
  | cons c rest ih =>
    intro idx db l r
    have hpart := chunkSplit_length_partition va vc vd fn c idx
    simp only [List.map_cons, processChunksF, if_true, List.sum_cons]
    refine ⟨(ih _ _ _ _).1, ?_⟩
    rw [(ih _ _ _ _).2]
    omega

theorem upsertLedgerLoadedStatus_fresh (tbl : List LedgerRow) (new : LedgerRow)
    (h : tbl.any (ledgerKeyMatch new.fileName new.source) = false) :
    upsertLedgerLoadedStatus tbl new = tbl ++ [new] := by
  unfold upsertLedgerLoadedStatus
  rw [if_neg (by simp [h])]

theorem chunksOf_length_sum (n : ℕ) (hn : 0 < n) (l : List α) :
    ((chunksOf n l).map List.length).sum = l.length := by
  have := chunksOf_flatten n hn l
  calc ((chunksOf n l).map List.length).sum
      = (chunksOf n l).flatten.length := (List.length_flatten _).symm
    _ = l.length := by rw [this]

theorem processOneFile_all_ok (va vc vd : List String) (fn : String) (total : ℕ)
    (chunks : List (List RawRow)) (db : FlightsDB) :
    (processOneFile va vc vd fn total (chunks.map (fun c => (c, true))) db).aborted
      = false ∧
    (processOneFile va vc vd fn total (chunks.map (fun c => (c, true))) db).loaded +
      (processOneFile va vc vd fn total (chunks.map (fun c => (c, true))) db).rejected
      = (chunks.map List.length).sum ∧
    (processOneFile va vc vd fn total (chunks.map (fun c => (c, true))) db).db.ledger =
      upsertLedgerFlights db.ledger
        ⟨fn, "flights", total,
         (processOneFile va vc vd fn total (chunks.map (fun c => (c, true))) db).loaded,
         (processOneFile va vc vd fn total (chunks.map (fun c => (c, true))) db).rejected,
         "completed"⟩ := by
  have h1 := processChunksF_all_ok va vc vd fn chunks 0 db 0 0
  have h2 := processChunksF_ledger va vc vd fn (chunks.map (fun c => (c, true))) 0 db 0 0
  unfold processOneFile
  rw [if_neg (by simp [h1.1])]
  refine ⟨h1.1, by simpa using h1.2, ?_⟩
  rw [h2]

/-- C3 (amended): `rows_loaded + rows_rejected = rows_processed` holds for
every ledger row WRITTEN BY `load_flights`, and for the airports/weather
rows when they are freshly inserted (for weather: when no generated pair is
already present).  The conflict-update path of the airports/weather upsert
keeps the old `rows_processed` while overwriting `rows_loaded`, so re-runs
(e.g. a weather re-run whose pairs all exist) violate the invariant. -/
theorem ledger_completed_invariant_amended :
    (∀ (va vc vd : List String) (fn : String) (csize : ℕ) (rows : List RawRow)
        (db : FlightsDB), 0 < csize →
      (processFile va vc vd fn csize rows db).1.aborted = false ∧
      (processFile va vc vd fn csize rows db).1.loaded +
        (processFile va vc vd fn csize rows db).1.rejected = rows.length ∧
      (processFile va vc vd fn csize rows db).1.db.ledger =
        upsertLedgerFlights db.ledger
          ⟨fn, "flights", rows.length, (processFile va vc vd fn csize rows db).1.loaded,
           (processFile va vc vd fn csize rows db).1.rejected, "completed"⟩) ∧
    (∀ (raw : List AirportRawRow) (db : AirportsDB),
      db.ledger.any (ledgerKeyMatch "airports.dat" "airports") = false →
      ∃ r, (load_airports raw db).ledger = db.ledger ++ [r] ∧
        r.status = "completed" ∧ r.rowsLoaded + r.rowsRejected = r.rowsProcessed) ∧
    (∀ (db : WeatherDB) (data : List WeatherObs),
      db.ledger.any (ledgerKeyMatch "iem_hourly_weather" "weather") = false →
      (∀ o ∈ data, wKey o ∉ db.observations.map wKey) →
      ∃ r, (load_weather data db).ledger = db.ledger ++ [r] ∧
        r.status = "completed" ∧ r.rowsLoaded + r.rowsRejected = r.rowsProcessed) := by
  refine ⟨?_, ?_, ?_⟩
  · intro va vc vd fn csize rows db hc
    have hdef : (processFile va vc vd fn csize rows db).1 =
        processOneFile va vc (effectiveDates vd rows) fn rows.length
          ((chunksOf csize rows).map (fun c => (c, true)))
          { db with dateDim := insertDateDim db.dateDim (ensureDatesExist (missingDates vd rows)) } := rfl
    have key := processOneFile_all_ok va vc (effectiveDates vd rows) fn rows.length
      (chunksOf csize rows)
      { db with dateDim := insertDateDim db.dateDim (ensureDatesExist (missingDates vd rows)) }
    have hsum := chunksOf_length_sum csize hc rows
    rw [hdef]
    exact ⟨key.1, by rw [key.2.1, hsum], key.2.2⟩
  · intro raw db h
    refine ⟨⟨"airports.dat", "airports",
      (dropDuplicatesFirst (iataFilter raw)).length,
      (dropDuplicatesFirst (iataFilter raw)).length, 0, "completed"⟩, ?_, rfl, rfl⟩
    unfold load_airports
    exact upsertLedgerLoadedStatus_fresh db.ledger _ h
  · intro db data h hdisj
    have hl := weatherLoop_loaded_count (db.observations.map wKey) data db.observations 0 0
    have hfull : (data.filter (fun o => decide (wKey o ∉ db.observations.map wKey))) = data := by
      rw [List.filter_eq_self]
      intro o ho
      simpa using hdisj o ho
    refine ⟨⟨"iem_hourly_weather", "weather", data.length,
      (weatherLoop (db.observations.map wKey) data db.observations 0 0).2.1, 0,
      "completed"⟩, ?_, rfl, ?_⟩
    · unfold load_weather
      exact upsertLedgerLoadedStatus_fresh db.ledger _ h
    · simp only [hl, hfull, Nat.zero_add, Nat.add_zero]

/-- C4 counterexample: with the most recent flights ledger row at
`(rows_loaded, rows_rejected) = (0, 100)` the rejection rate is 100 % — not
below 5 % — yet check 7 is skipped entirely because `rows_loaded = 0`, so
with every other check passing the gate records no failure and raises
nothing. -/
theorem quality_gate_rate_counterexample :
    (5 : ℚ) ≤ rejectRate 0 100 ∧
    otherChecksPass ⟨1, 1, 1, 0, 0, 0, some (0, 100), 1, 1, 1⟩ = true ∧
    qualityGateRaises ⟨1, 1, 1, 0, 0, 0, some (0, 100), 1, 1, 1⟩ = false := by
  refine ⟨by norm_num [rejectRate], by decide, by decide⟩

/-- C4 (amended): PROVIDED the most recent flights ledger row has
`rows_loaded > 0`, a rejection rate of at least 5 % makes the gate record a
failed check and raise, and a rate strictly below 5 % with every other
check passing makes the gate succeed; in particular 95 loaded / 5 rejected
gives exactly 5.0 %, which fails the gate.  (With `rows_loaded = 0` the
rate check is skipped, see the counterexample.) -/
theorem quality_gate_rate_threshold (s : QCState) (l r : ℕ)
    (h : s.lastFlightsRun = some (l, r)) (hl : 0 < l) :
    (5 ≤ rejectRate l r → qualityGateRaises s = true) ∧
    (rejectRate l r < 5 → otherChecksPass s = true → qualityGateRaises s = false) ∧
    qualityGateRaises ⟨1, 1, 1, 0, 0, 0, some (95, 5), 1, 1, 1⟩ = true := by
  refine ⟨?_, ?_, ?_⟩
  · intro hrate
    have hnlt : ¬ rejectRate l r < 5 := not_lt.mpr hrate
    suffices hs : 0 < checksFailed s by simpa [qualityGateRaises] using hs
    unfold checksFailed
    rw [h]
    simp only [if_pos hl, hnlt, if_false]
    split_ifs <;> omega
  · intro hrate hother
    simp only [otherChecksPass, Bool.and_eq_true, decide_eq_true_eq] at hother
    obtain ⟨⟨⟨⟨⟨⟨⟨⟨ha, hb⟩, hcn⟩, hd⟩, he⟩, hf⟩, hg⟩, hh⟩, hi⟩ := hother
    simp [qualityGateRaises, checksFailed, h, ha, hb, hcn, hd, he, hf, hg, hh, hi,
      hl, hrate]
  · have hrate95 : ¬ rejectRate 95 5 < 5 := by norm_num [rejectRate]
    simp [qualityGateRaises, checksFailed, hrate95]

theorem quality_gate_rate_threshold_witness :
    qualityGateRaises ⟨1, 1, 1, 0, 0, 0, some (100, 1), 1, 1, 1⟩ = false :=
  (quality_gate_rate_threshold ⟨1, 1, 1, 0, 0, 0, some (100, 1), 1, 1, 1⟩ 100 1 rfl
    (by norm_num)).2.1 (by norm_num [rejectRate]) (by decide)

theorem ledger_completed_invariant_amended_witness :
    (processFile [] [] [] "f.csv" 50000 [] ⟨[], [], [], []⟩).1.loaded +
      (processFile [] [] [] "f.csv" 50000 [] ⟨[], [], [], []⟩).1.rejected = 0 ∧
    (∃ r, (load_weather [wObsA] ⟨[], []⟩).ledger = [] ++ [r] ∧
      r.status = "completed" ∧ r.rowsLoaded + r.rowsRejected = r.rowsProcessed) :=
  ⟨(ledger_completed_invariant_amended.1 [] [] [] "f.csv" 50000 [] ⟨[], [], [], []⟩
      (by decide)).2.1,
   ledger_completed_invariant_amended.2.2 ⟨[], []⟩ [wObsA] (by decide) (by decide)⟩

theorem pyWeekday_lt_seven (dt : Date) : pyWeekday dt < 7 := by
  unfold pyWeekday
  have h1 : 0 ≤ (daysFromCivil dt.year dt.month dt.day + 3) % 7 :=
    Int.emod_nonneg _ (by norm_num)
  have h2 : (daysFromCivil dt.year dt.month dt.day + 3) % 7 < 7 :=
    Int.emod_lt_of_pos _ (by norm_num)
  omega

/-- C5: when a file contains a flight date missing from the snapshot, that
date's canonical string is in the set every row of the file is validated
against (the insert and set update happen before the chunk loop); the rows
handed to the `date_dim` insert are exactly `ensureDateRow` of the missing
dates; and the derived attributes satisfy quarter = ceil(month/3),
weekend ⟺ Saturday/Sunday, and the seasonal mapping of
`ensure_dates_exist`. -/
theorem date_dim_inserted_before_validation :
    (∀ (vd : List String) (rows : List RawRow) (r : RawRow) (dt : Date),
      r ∈ rows → parseDate (pyStrip r.flightDate) = some dt →
      dateStr dt ∈ effectiveDates vd rows) ∧
    (∀ (vd : List String) (rows : List RawRow) (r : RawRow) (dt : Date),
      r ∈ rows → parseDate (pyStrip r.flightDate) = some dt →
      pyStrip r.flightDate = dateStr dt →
      pyStrip r.flightDate ∈ effectiveDates vd rows) ∧
    (∀ (vd : List String) (rows : List RawRow) (s : String) (dt : Date),
      parseDate s = some dt → s ∈ missingDates vd rows →
      ensureDateRow dt ∈ ensureDatesExist (missingDates vd rows)) ∧
    (∀ dt : Date, 1 ≤ dt.month →
      (ensureDateRow dt).quarter = (dt.month + 2) / 3) ∧
    (∀ dt : Date,
      ((ensureDateRow dt).isWeekend = true ↔
        ((ensureDateRow dt).dayName = "Saturday" ∨
         (ensureDateRow dt).dayName = "Sunday"))) ∧
    (∀ dt : Date,
      ((dt.month = 12 ∨ dt.month = 1 ∨ dt.month = 2) →
        (ensureDateRow dt).season = "Winter") ∧
      ((dt.month = 3 ∨ dt.month = 4 ∨ dt.month = 5) →
        (ensureDateRow dt).season = "Spring") ∧
      ((dt.month = 6 ∨ dt.month = 7 ∨ dt.month = 8) →
        (ensureDateRow dt).season = "Summer") ∧
      (9 ≤ dt.month → dt.month ≤ 11 → (ensureDateRow dt).season = "Fall")) := by
  have hmem : ∀ (vd : List String) (rows : List RawRow) (r : RawRow) (dt : Date),
      r ∈ rows → parseDate (pyStrip r.flightDate) = some dt →
      dateStr dt ∈ effectiveDates vd rows := by
    intro vd rows r dt hr hp
    have hin : dateStr dt ∈ datesInFile rows := by
      unfold datesInFile
      rw [List.mem_dedup]
      exact List.mem_map_of_mem dateStr (List.mem_filterMap.mpr ⟨r, hr, hp⟩)
    by_cases hvd : dateStr dt ∈ vd
    · exact List.mem_append_left _ hvd
    · refine List.mem_append_right _ ?_
      unfold missingDates
      rw [List.mem_filter]
      exact ⟨hin, by simpa using hvd⟩
  refine ⟨hmem, ?_, ?_, ?_, ?_, ?_⟩
  · intro vd rows r dt hr hp hcanon
    rw [hcanon]
    exact hmem vd rows r dt hr hp
  · intro vd rows s dt hp hm
    unfold ensureDatesExist
    exact List.mem_filterMap.mpr ⟨s, hm, by rw [hp]; rfl⟩
  · intro dt h1
    show (dt.month - 1) / 3 + 1 = (dt.month + 2) / 3
    omega
  · intro dt
    show decide (5 ≤ pyWeekday dt) = true ↔
      (dayNames.getD (pyWeekday dt) "" = "Saturday" ∨
       dayNames.getD (pyWeekday dt) "" = "Sunday")
    have hw : pyWeekday dt < 7 := pyWeekday_lt_seven dt
    set w := pyWeekday dt with hwdef
    interval_cases w <;> simp [dayNames]
  · intro dt
    refine ⟨?_, ?_, ?_, ?_⟩
    · rintro (h | h | h) <;> simp [ensureDateRow, getSeason, h]
    · rintro (h | h | h) <;> simp [ensureDateRow, getSeason, h]
    · rintro (h | h | h) <;> simp [ensureDateRow, getSeason, h]
    · intro h9 h11
      have : dt.month = 9 ∨ dt.month = 10 ∨ dt.month = 11 := by omega
      rcases this with h | h | h <;> simp [ensureDateRow, getSeason, h]

theorem date_dim_inserted_before_validation_witness :
    dateStr ⟨2024, 1, 6⟩ ∈
      effectiveDates [] [sampleRawRow "AAA" "BBB" "DL" "2024-01-06"] ∧
    (ensureDateRow ⟨2024, 1, 6⟩).quarter = (1 + 2) / 3 :=
  ⟨date_dim_inserted_before_validation.1 [] [sampleRawRow "AAA" "BBB" "DL" "2024-01-06"]
     (sampleRawRow "AAA" "BBB" "DL" "2024-01-06") ⟨2024, 1, 6⟩
     (List.mem_singleton.mpr rfl) (by decide),
   date_dim_inserted_before_validation.2.2.2.1 ⟨2024, 1, 6⟩ (by decide)⟩

theorem processChunksF_first_failure (va vc vd : List String) (fn : String) :
    ∀ (pre : List (List RawRow × Bool)), (∀ x ∈ pre, x.2 = true) →
    ∀ (c : List RawRow) (rest : List (List RawRow × Bool)) (idx : ℕ)
      (db : FlightsDB) (l r : ℕ),
      processChunksF va vc vd fn (pre ++ (c, false) :: rest) idx db l r =
        ⟨(processChunksF va vc vd fn pre idx db l r).db,
         (processChunksF va vc vd fn pre idx db l r).loaded,
         (processChunksF va vc vd fn pre idx db l r).rejected, true⟩ := by
  intro pre
  induction pre with
  | nil =>
    intro _ c rest idx db l r
    simp [processChunksF]
  | cons cf pre' ih =>
    intro hpre c rest idx db l r
    rcases cf with ⟨c0, ok0⟩
    have hok0 : ok0 = true := hpre (c0, ok0) (by simp)
    subst hok0
    simp only [List.cons_append, processChunksF, if_true]
    exact ih (fun x hx => hpre x (by simp [hx])) c rest _ _ _ _

/-- C6 counterexample: connectivity loss while LISTING the bucket does not
abort `load_flights`.  `list_files` catches the exception and returns the
empty list, so the stage finds no new files and returns normally with zero
files processed — no error is raised and nothing in the claim's abort
behaviour happens for this error class. -/
theorem load_flights_listing_error_swallowed :
    list_files (.error ()) = [] ∧
    load_flights (.error ()) (fun _ => .error ()) (fun _ _ => false) 50000 [] [] []
      ⟨[], [], [], []⟩ = (⟨[], [], [], []⟩, .ok (0, 0, 0)) :=
  ⟨rfl, rfl⟩

/-- C6 (amended): an unrecoverable error while FETCHING a file or during a
CHUNK WRITE aborts the stage with the error propagated, the file's ledger
row is never written (the whole ledger is untouched), and the chunks
committed before the failure remain committed; an error while LISTING
files, however, is swallowed by `list_files` (empty listing), and the stage
completes normally with zero files processed. -/
theorem load_flights_structural_error_abort :
    (∀ (va vc vd : List String) (fn : String) (total : ℕ)
        (pre : List (List RawRow × Bool)) (c : List RawRow)
        (rest : List (List RawRow × Bool)) (db : FlightsDB),
      (∀ x ∈ pre, x.2 = true) →
      (processOneFile va vc vd fn total (pre ++ (c, false) :: rest) db).aborted = true ∧
      (processOneFile va vc vd fn total (pre ++ (c, false) :: rest) db).db =
        (processChunksF va vc vd fn pre 0 db 0 0).db ∧
      (processOneFile va vc vd fn total (pre ++ (c, false) :: rest) db).db.ledger =
        db.ledger) ∧
    (∀ (va vc : List String) (fetch : String → Except Unit (List RawRow))
        (writeOk : String → ℕ → Bool) (csize : ℕ) (fk : String)
        (rest vd : List String) (db : FlightsDB) (fp gl gr : ℕ),
      fetch fk = .error () →
      runFiles va vc fetch writeOk csize (fk :: rest) vd db fp gl gr =
        (db, .error ())) ∧
    (∀ (fetch : String → Except Unit (List RawRow)) (writeOk : String → ℕ → Bool)
        (csize : ℕ) (va vc vd : List String) (db : FlightsDB),
      load_flights (.error ()) fetch writeOk csize va vc vd db = (db, .ok (0, 0, 0))) := by
  refine ⟨?_, ?_, ?_⟩
  · intro va vc vd fn total pre c rest db hpre
    have hf := processChunksF_first_failure va vc vd fn pre hpre c rest 0 db 0 0
    have hled := processChunksF_ledger va vc vd fn pre 0 db 0 0
    unfold processOneFile
    rw [hf]
    exact ⟨rfl, rfl, hled⟩
  · intro va vc fetch writeOk csize fk rest vd db fp gl gr h
    unfold runFiles
    rw [h]
  · intro fetch writeOk csize va vc vd db
    rfl

theorem load_flights_structural_error_abort_witness :
    (processOneFile [] [] [] "f.csv" 0 ([] ++ ([], false) :: []) ⟨[], [], [], []⟩).aborted
      = true ∧
    runFiles [] [] (fun _ => Except.error ()) (fun _ _ => false) 1 ["raw/f.csv"] []
      ⟨[], [], [], []⟩ 0 0 0 = (⟨[], [], [], []⟩, Except.error ()) :=
  ⟨(load_flights_structural_error_abort.1 [] [] [] "f.csv" 0 [] [] []
      ⟨[], [], [], []⟩ (by simp)).1,
   load_flights_structural_error_abort.2.1 [] [] (fun _ => Except.error ())
     (fun _ _ => false) 1 "raw/f.csv" [] [] ⟨[], [], [], []⟩ 0 0 0 rfl⟩

end FlightPipeline
